import Mathlib

/-!
Verification of the cinemood recommendation pipeline against its
natural-language specification.

The Python services are shallowly embedded as executable Lean functions:

* `cacheKey` models `CacheService.compute_hash` applied to the dictionary
  built in `RecommendationService.get_recommendations` (cache_service.py
  lines 20-33, recommendation_service.py lines 81-88);
* `findSimilar` models `SimilarityService.find_similar`
  (similarity_service.py lines 51-117);
* `generate`, `mockResponse`, `fallbackResponse` model
  `LLMService.generate`, `_mock_response`, `_fallback_response`
  (llm_service.py lines 184-342);
* `RateLimiter.acquire` models `RateLimiter.acquire` (llm_service.py
  lines 78-98);
* `cacheGet` models `CacheService.get` together with `LLMCache.is_expired`
  (cache_service.py lines 35-59, llm_cache.py lines 26-28);
* `fetchFilmsWithRetry` models the unfiltered-retry step of
  `RecommendationService.get_recommendations` (lines 104-113).

Machine reals (numpy float32/float64, Python float timestamps) are embedded
as exact rationals.  `numpy.argsort` is embedded as a stable ascending
argsort (numpy's introsort is insertion sort - hence stable - on the small
slices all examples below use, and every universally quantified statement
proved here is insensitive to the tie order chosen inside `argsort`).
-/

namespace Cinemood

variable {α : Type} [LinearOrderedCommRing α]

/-! ### Stable ascending argsort (model of `numpy.argsort`)

`argLe xs` is the total order "smaller value first, ties by smaller
original index first" on positions of `xs`; sorting the index list
`[0, ..., xs.length - 1]` by it is exactly a stable ascending argsort. -/

/-- Comparison of positions `i`, `j` of `xs`: ascending by value, ties broken
by ascending index (the order realised by a stable ascending argsort). -/
def argLe (xs : List α) (i j : ℕ) : Prop :=
  xs.getD i 0 < xs.getD j 0 ∨ (xs.getD i 0 = xs.getD j 0 ∧ i ≤ j)

instance (xs : List α) : DecidableRel (argLe xs) := fun i j => by
  unfold argLe; exact inferInstance

instance (xs : List α) : IsTotal ℕ (argLe xs) := by
  refine ⟨fun i j => ?_⟩
  rcases lt_trichotomy (xs.getD i 0) (xs.getD j 0) with h | h | h
  · exact Or.inl (Or.inl h)
  · rcases le_total i j with hij | hij
    · exact Or.inl (Or.inr ⟨h, hij⟩)
    · exact Or.inr (Or.inr ⟨h.symm, hij⟩)
  · exact Or.inr (Or.inl h)

instance (xs : List α) : IsTrans ℕ (argLe xs) := by
  refine ⟨fun a b c hab hbc => ?_⟩
  rcases hab with h1 | ⟨e1, l1⟩ <;> rcases hbc with h2 | ⟨e2, l2⟩
  · exact Or.inl (h1.trans h2)
  · exact Or.inl (e2 ▸ h1)
  · exact Or.inl (e1 ▸ h2)
  · exact Or.inr ⟨e1.trans e2, l1.trans l2⟩

instance (xs : List α) : IsAntisymm ℕ (argLe xs) := by
  refine ⟨fun a b hab hba => ?_⟩
  rcases hab with h1 | ⟨e1, l1⟩
  · rcases hba with h2 | ⟨e2, l2⟩
    · exact absurd (h1.trans h2) (lt_irrefl _)
    · exact absurd h1 (by rw [e2]; exact lt_irrefl _)
  · rcases hba with h2 | ⟨e2, l2⟩
    · exact absurd h2 (by rw [e1]; exact lt_irrefl _)
    · exact Nat.le_antisymm l1 l2

/-- Stable ascending argsort of `xs`: the permutation of
`[0, ..., xs.length - 1]` sorted by `argLe xs`.  This is one admissible
determinization of `np.argsort(xs)` (default `kind='quicksort'`), whose
order among *tied* entries numpy leaves unspecified; numpy coincides
with it below introsort's insertion-sort threshold (about 16 elements).
Universally quantified theorems below draw only tie-order-insensitive
conclusions from it (counts, membership, score ordering). -/
def argsortAsc (xs : List α) : List ℕ :=
  List.insertionSort (argLe xs) (List.range xs.length)

theorem argsortAsc_perm (xs : List α) : (argsortAsc xs).Perm (List.range xs.length) :=
  List.perm_insertionSort _ _

theorem argsortAsc_sorted (xs : List α) : List.Sorted (argLe xs) (argsortAsc xs) :=
  List.sorted_insertionSort _ _

theorem argsortAsc_nodup (xs : List α) : (argsortAsc xs).Nodup :=
  ((argsortAsc_perm xs).nodup_iff).mpr (List.nodup_range _)

theorem argsortAsc_length (xs : List α) : (argsortAsc xs).length = xs.length := by
  simpa using (argsortAsc_perm xs).length_eq

theorem mem_argsortAsc {xs : List α} {i : ℕ} (h : i ∈ argsortAsc xs) :
    i < xs.length := by
  have := (argsortAsc_perm xs).mem_iff.mp h
  simpa using this

/-! ### Cache key (claim C1)

`CacheService.compute_hash` serializes its argument with
`json.dumps(data, sort_keys=True, ensure_ascii=False)` and returns the
SHA-256 hex digest of the UTF-8 bytes of that string.
`RecommendationService.get_recommendations` builds the hashed dictionary
as `mood / duration / sorted(platforms) / sorted(genres) /
deep_question_id / deep_answer`.  `cacheKey` below produces exactly the
serialized JSON string (keys in sorted order, `", "` and `": "`
separators, as `json.dumps` emits them).  The SHA-256 digest applied on
top is a pure function of this string, so two requests receive identical
cache keys exactly when `cacheKey` agrees on them. -/

/-- Per-request quiz input (`QuizAnswers` in recommendation_service.py). -/
structure QuizAnswers where
  mood : String
  duration : String
  platforms : List String
  genres : List String
  deep_question_id : Int
  deep_question_text : String
  deep_answer : String
deriving DecidableEq

/-- JSON escaping of a single character as done by `json.dumps` for the
characters that need it (character-wise, which is all the development
uses). -/
def escChar (c : Char) : String :=
  if c = '"' then "\\\""
  else if c = '\\' then "\\\\"
  else if c = '\n' then "\\n"
  else if c = '\t' then "\\t"
  else if c = '\r' then "\\r"
  else String.singleton c

/-- JSON escaping of a string (character-wise). -/
def jsonEscape (s : String) : String :=
  String.join (s.data.map escChar)

/-- JSON serialization of a string value. -/
def jStr (s : String) : String :=
  "\"" ++ jsonEscape s ++ "\""

/-- JSON serialization of a list of strings with `json.dumps`'s default
`", "` item separator. -/
def jStrList (l : List String) : String :=
  "[" ++ String.intercalate ", " (l.map jStr) ++ "]"

/-- Python's `sorted` on a list of strings (a stable sort; on strings the
result is determined by the multiset of elements). -/
def sortStrings (l : List String) : List String :=
  List.insertionSort (· ≤ ·) l

/-- The canonical serialization hashed by `compute_hash`: the
`json.dumps(..., sort_keys=True)` output for the dictionary built at
recommendation_service.py lines 81-88 (keys emitted in sorted order:
deep_answer, deep_question_id, duration, genres, mood, platforms). -/
def cacheKey (a : QuizAnswers) : String :=
  "\x7b\"deep_answer\": " ++ jStr a.deep_answer ++
  ", \"deep_question_id\": " ++ toString a.deep_question_id ++
  ", \"duration\": " ++ jStr a.duration ++
  ", \"genres\": " ++ jStrList (sortStrings a.genres) ++
  ", \"mood\": " ++ jStr a.mood ++
  ", \"platforms\": " ++ jStrList (sortStrings a.platforms) ++ "\x7d"

theorem sortStrings_eq_of_perm {l₁ l₂ : List String} (h : l₁.Perm l₂) :
    sortStrings l₁ = sortStrings l₂ :=
  List.eq_of_perm_of_sorted
    ((List.perm_insertionSort _ _).trans (h.trans (List.perm_insertionSort _ _).symm))
    (List.sorted_insertionSort _ _) (List.sorted_insertionSort _ _)

/-- Claim C1: cache-key determinism under reordering.  For every pair of
`QuizAnswers` that differ only in the ordering of their multi-valued
fields (platforms list, genres list), the computed cache key is
identical: the key is a pure function of mood text, duration bucket,
sorted platform list, sorted genre list, deep-question id and deep-answer
text, independent of field ordering. -/
theorem cacheKey_order_independent (a b : QuizAnswers)
    (hm : a.mood = b.mood) (hd : a.duration = b.duration)
    (hp : a.platforms.Perm b.platforms) (hg : a.genres.Perm b.genres)
    (hq : a.deep_question_id = b.deep_question_id)
    (_ht : a.deep_question_text = b.deep_question_text)
    (ha : a.deep_answer = b.deep_answer) :
    cacheKey a = cacheKey b := by
  unfold cacheKey
  rw [hm, hd, hq, ha, sortStrings_eq_of_perm hp, sortStrings_eq_of_perm hg]

/-- Witness for C1 at a concrete input: two quiz answers whose platform and
genre lists are permutations of each other receive the same cache key. -/
theorem cacheKey_order_independent_witness :
    cacheKey ⟨"joyeux", "any", ["Netflix", "Prime"], ["Comédie", "Drame"], 3, "q", "r"⟩ =
      cacheKey ⟨"joyeux", "any", ["Prime", "Netflix"], ["Drame", "Comédie"], 3, "q", "r"⟩ :=
  cacheKey_order_independent _ _ rfl rfl (by decide) (by decide) rfl rfl rfl

/-! ### Vector similarity retrieval (claims C5, C6, C7)

`SimilarityService.find_similar` (similarity_service.py lines 51-117).
The state after `load_embeddings` is a list of `(film_id, embedding)`
pairs (`film_ids` and the rows of `film_embeddings`, built from the same
input list).  One documented modelling choice: the service divides the
user vector by its Euclidean norm before taking dot products; that is a
single strictly positive scalar applied to every similarity score, so it
changes neither the zero test (modelled exactly via the squared norm),
nor score comparisons, nor which scores are equal.  The model therefore
takes dot products with the query vector directly (equivalently: the
query argument is the normalized vector), and all statements proved
below are invariant under that positive rescaling. -/

/-- Result record of `find_similar` (`SimilarityResult` in
similarity_service.py). -/
structure SimilarityResult (α : Type) where
  film_id : Int
  score : α
deriving DecidableEq

/-- Dot product (numpy `np.dot` row-by-vector). -/
def dot (u v : List α) : α := (List.zipWith (· * ·) u v).sum

/-- Squared Euclidean norm; `normSq u = 0` iff `np.linalg.norm(u) == 0`. -/
def normSq (u : List α) : α := (u.map (fun x => x * x)).sum

/-- The score clamp `max(0.0, min(1.0, score))` at
similarity_service.py line 111. -/
def clamp01 (x : α) : α := max 0 (min 1 x)

/-- Python slice `l[-k:]`: the last `k` elements, except that `l[-0:]` is
the whole list (this is exactly how `top_indices[-top_k:]` behaves when
`top_k == 0`). -/
def sliceLast (l : List ℕ) (k : ℕ) : List ℕ :=
  if k = 0 then l else l.drop (l.length - k)

/-- The index selection of `find_similar` (lines 95-100): full descending
argsort when the pool fits in `top_k`, otherwise
`np.argpartition(sims, -top_k)[-top_k:]` re-sorted descending.
`argpartition` followed by the local argsort is realised through the
stable full argsort, of which the slice `[-top_k:]` retains exactly the
`top_k` largest entries.  Which tied boundary candidates `argpartition`
selects, and in which order ties emerge, is unspecified in numpy and
fixed here by the same determinization as `argsortAsc`; theorems again
read only tie-order-insensitive conclusions from this definition. -/
def topIndicesFn (sims : List α) (topK : ℕ) : List ℕ :=
  if sims.length ≤ topK then (argsortAsc sims).reverse
  else
    ((argsortAsc ((sliceLast (argsortAsc sims) topK).map (fun i => sims.getD i 0))).map
      (fun j => (sliceLast (argsortAsc sims) topK).getD j 0)).reverse

/-- The candidate-pool restriction of lines 79-87.  Note the Python
truthiness test `if film_id_filter:`: both `None` and the empty list
leave the pool unrestricted. -/
def filteredPool (pool : List (Int × List α)) : Option (List Int) → List (Int × List α)
  | none => pool
  | some l => if l = [] then pool else pool.filter (fun p => decide (p.1 ∈ l))

/-- Similarity scores of the (filtered) pool against the query
(line 93). -/
def simScores (pool : List (Int × List α)) (u : List α) : List α :=
  pool.map (fun p => dot p.2 u)

/-- `SimilarityService.find_similar` (lines 51-117): guard clauses for an
empty index, a zero query vector and an empty filtered pool, then clamped
scores of the selected indices in selection order. -/
def findSimilar (pool : List (Int × List α)) (userEmb : List α) (topK : ℕ)
    (fl : Option (List Int)) : List (SimilarityResult α) :=
  if pool.length = 0 then []
  else if normSq userEmb = 0 then []
  else if (filteredPool pool fl).length = 0 then []
  else
    (topIndicesFn (simScores (filteredPool pool fl) userEmb) topK).map
      (fun i => ⟨((filteredPool pool fl).map Prod.fst).getD i 0,
                 clamp01 ((simScores (filteredPool pool fl) userEmb).getD i 0)⟩)

/-- Descending variant of `argLe`: larger value first, ties broken by
larger original index first.  This is the order of the model's
`argsortAsc` after `[::-1]` (and of numpy's whenever its argsort happens
to be stable, e.g. below the insertion-sort threshold): reversing an
ascending stable argsort reverses the tie order as well.  Theorems about
the program read only its value-ordering content, never the tie
component, except where explicitly noted at small concrete inputs. -/
def descLex (xs : List α) (i j : ℕ) : Prop :=
  xs.getD j 0 < xs.getD i 0 ∨ (xs.getD i 0 = xs.getD j 0 ∧ j < i)

theorem filteredPool_some (pool : List (Int × List α)) (l : List Int) :
    filteredPool pool (some l) =
      if l = [] then pool else pool.filter (fun p => decide (p.1 ∈ l)) := rfl

theorem sliceLast_sublist (l : List ℕ) (k : ℕ) : (sliceLast l k).Sublist l := by
  unfold sliceLast
  split
  · exact List.Sublist.refl l
  · exact List.drop_sublist _ _

theorem sorted_descLex_reverse {xs : List α} {l : List ℕ}
    (hs : List.Sorted (argLe xs) l) (hn : l.Nodup) :
    List.Sorted (descLex xs) l.reverse := by
  have h := (List.Pairwise.and hs hn)
  rw [List.Sorted, List.pairwise_reverse]
  refine h.imp ?_
  rintro a b ⟨hab, hne⟩
  rcases hab with h1 | ⟨e1, l1⟩
  · exact Or.inl h1
  · exact Or.inr ⟨e1.symm, lt_of_le_of_ne l1 hne⟩

theorem argLe_le {xs : List α} {i j : ℕ} (h : argLe xs i j) :
    xs.getD i 0 ≤ xs.getD j 0 := by
  rcases h with h | ⟨e, _⟩
  · exact le_of_lt h
  · exact le_of_eq e

theorem argsortAsc_eq_range {xs : List α} (h : List.Sorted (· ≤ ·) xs) :
    argsortAsc xs = List.range xs.length := by
  refine List.eq_of_perm_of_sorted (argsortAsc_perm xs) (argsortAsc_sorted xs) ?_
  rw [List.Sorted]
  refine List.pairwise_iff_getElem.mpr ?_
  intro i j hi hj hij
  rw [List.getElem_range, List.getElem_range]
  have hi' : i < xs.length := by simpa using hi
  have hj' : j < xs.length := by simpa using hj
  have hle : xs[i] ≤ xs[j] := List.pairwise_iff_getElem.mp h i j hi' hj' hij
  rw [← List.getD_eq_getElem xs 0 hi', ← List.getD_eq_getElem xs 0 hj'] at hle
  rcases eq_or_lt_of_le hle with e | lt
  · exact Or.inr ⟨e, le_of_lt hij⟩
  · exact Or.inl lt

theorem map_getD_range {β : Type} (l : List β) (d : β) :
    (List.range l.length).map (fun i => l.getD i d) = l := by
  apply List.ext_getElem
  · simp
  · intro i h1 h2
    simp only [List.getElem_map, List.getElem_range]
    exact List.getD_eq_getElem l d h2

theorem topIndicesFn_eq (sims : List α) (k : ℕ) :
    topIndicesFn sims k = (sliceLast (argsortAsc sims) k).reverse := by
  unfold topIndicesFn
  by_cases h : sims.length ≤ k
  · rw [if_pos h]
    congr 1
    unfold sliceLast
    by_cases hk : k = 0
    · rw [if_pos hk]
    · rw [if_neg hk, argsortAsc_length, Nat.sub_eq_zero_of_le h, List.drop_zero]
  · rw [if_neg h]
    congr 1
    have hsel : List.Sorted (argLe sims) (sliceLast (argsortAsc sims) k) :=
      (argsortAsc_sorted sims).sublist (sliceLast_sublist _ _)
    have hvals :
        List.Sorted (· ≤ ·) ((sliceLast (argsortAsc sims) k).map (fun i => sims.getD i 0)) :=
      hsel.map _ (fun _ _ hab => argLe_le hab)
    rw [argsortAsc_eq_range hvals, List.length_map, map_getD_range]

theorem topIndicesFn_sorted (sims : List α) (k : ℕ) :
    List.Sorted (descLex sims) (topIndicesFn sims k) := by
  rw [topIndicesFn_eq]
  exact sorted_descLex_reverse
    ((argsortAsc_sorted sims).sublist (sliceLast_sublist _ _))
    ((argsortAsc_nodup sims).sublist (sliceLast_sublist _ _))

theorem mem_topIndicesFn {sims : List α} {k i : ℕ} (h : i ∈ topIndicesFn sims k) :
    i < sims.length := by
  rw [topIndicesFn_eq] at h
  exact mem_argsortAsc ((sliceLast_sublist _ _).subset (List.mem_reverse.mp h))

theorem topIndicesFn_length (sims : List α) (k : ℕ) :
    (topIndicesFn sims k).length = if k = 0 then sims.length else min k sims.length := by
  rw [topIndicesFn_eq, List.length_reverse]
  unfold sliceLast
  by_cases hk : k = 0
  · rw [if_pos hk, if_pos hk, argsortAsc_length]
  · rw [if_neg hk, if_neg hk, List.length_drop, argsortAsc_length]
    omega

theorem clamp01_mono {a b : α} (h : a ≤ b) : clamp01 a ≤ clamp01 b :=
  max_le_max le_rfl (min_le_min le_rfl h)

theorem clamp01_bounds (x : α) : 0 ≤ clamp01 x ∧ clamp01 x ≤ 1 :=
  ⟨le_max_left _ _, max_le zero_le_one (min_le_left _ _)⟩

theorem findSimilar_eq {pool : List (Int × List α)} {u : List α} {k : ℕ}
    {fl : Option (List Int)} (h1 : pool.length ≠ 0) (h2 : normSq u ≠ 0)
    (h3 : (filteredPool pool fl).length ≠ 0) :
    findSimilar pool u k fl =
      (topIndicesFn (simScores (filteredPool pool fl) u) k).map
        (fun i => ⟨((filteredPool pool fl).map Prod.fst).getD i 0,
                   clamp01 ((simScores (filteredPool pool fl) u).getD i 0)⟩) := by
  unfold findSimilar
  rw [if_neg h1, if_neg h2, if_neg h3]

/-- Claim C5 (amended): filter containment holds for every *non-empty*
`allowedIds` list: every film id returned by `find_similar` is then a
member of `allowedIds`.  (For an empty `allowedIds` list the Python
truthiness test `if film_id_filter:` silently skips the restriction, see
the counterexample.) -/
theorem findSimilar_filter_containment (pool : List (Int × List α)) (u : List α) (k : ℕ)
    (allowed : List Int) (hne : allowed ≠ []) :
    ∀ r ∈ findSimilar pool u k (some allowed), r.film_id ∈ allowed := by
  intro r hr
  by_cases h1 : pool.length = 0
  · unfold findSimilar at hr
    rw [if_pos h1] at hr
    cases hr
  by_cases h2 : normSq u = 0
  · unfold findSimilar at hr
    rw [if_neg h1, if_pos h2] at hr
    cases hr
  by_cases h3 : (filteredPool pool (some allowed)).length = 0
  · unfold findSimilar at hr
    rw [if_neg h1, if_neg h2, if_pos h3] at hr
    cases hr
  rw [findSimilar_eq h1 h2 h3] at hr
  obtain ⟨i, hi, hri⟩ := List.mem_map.mp hr
  have hlen : i < (simScores (filteredPool pool (some allowed)) u).length := mem_topIndicesFn hi
  have hlen2 : i < ((filteredPool pool (some allowed)).map Prod.fst).length := by
    simpa [simScores] using hlen
  have hmem : ((filteredPool pool (some allowed)).map Prod.fst).getD i 0 ∈
      (filteredPool pool (some allowed)).map Prod.fst := by
    rw [List.getD_eq_getElem _ 0 hlen2]
    exact List.getElem_mem hlen2
  obtain ⟨p, hp, hfst⟩ := List.mem_map.mp hmem
  have hp' : p ∈ pool.filter (fun p => decide (p.1 ∈ allowed)) := by
    rwa [filteredPool_some, if_neg hne] at hp
  have hdec := (List.mem_filter.mp hp').2
  have : p.1 ∈ allowed := of_decide_eq_true hdec
  rw [← hri]
  simpa [hfst] using this

/-- Witness for C5 at a concrete input: with pool ids 1 and 2 and
`allowedIds = [2]`, the single returned result has id 2, a member of
`allowedIds`. -/
theorem findSimilar_filter_containment_witness :
    (⟨2, 1⟩ : SimilarityResult ℤ).film_id ∈ [(2 : Int)] :=
  findSimilar_filter_containment [(1, [1]), (2, [1])] ([1] : List ℤ) 5 [2]
    (by decide) ⟨2, 1⟩ (by decide)

/-- Counterexample to C5 as stated: `find_similar` called with the
*supplied* filter `allowedIds = []` returns film id 1, which is not a
member of the empty allowed set — the Python truthiness test
`if film_id_filter:` treats an empty list like `None` and applies no
restriction. -/
theorem findSimilar_empty_filter_counterexample :
    (findSimilar [(1, [1])] ([1] : List ℤ) 20 (some [])).map SimilarityResult.film_id = [1] ∧
    (1 : Int) ∉ ([] : List Int) := by
  decide

/-- Claim C6 (amended): for every non-empty pool, query vector and
`topK ≥ 1`, `find_similar` with no id filter returns at most `topK`
results, with scores sorted non-increasingly, each in `[0, 1]`.  (At
`topK = 0` the Python slice `[-top_k:]` degenerates to the whole pool,
see the counterexample.) -/
theorem findSimilar_topk_bounds (pool : List (Int × List α)) (u : List α) (k : ℕ)
    (hpool : pool ≠ []) (hk : 1 ≤ k) :
    (findSimilar pool u k none).length ≤ k ∧
    List.Sorted (fun a b : SimilarityResult α => b.score ≤ a.score) (findSimilar pool u k none) ∧
    ∀ r ∈ findSimilar pool u k none, 0 ≤ r.score ∧ r.score ≤ 1 := by
  have h1 : pool.length ≠ 0 := by
    simpa [List.length_eq_zero] using hpool
  by_cases h2 : normSq u = 0
  · have he : findSimilar pool u k none = [] := by
      unfold findSimilar
      rw [if_neg h1, if_pos h2]
    rw [he]
    refine ⟨by simp, List.sorted_nil, by intro r hr; cases hr⟩
  have h3 : (filteredPool pool none).length ≠ 0 := h1
  rw [findSimilar_eq h1 h2 h3]
  refine ⟨?_, ?_, ?_⟩
  · rw [List.length_map, topIndicesFn_length, if_neg (by omega : ¬ k = 0)]
    exact min_le_left _ _
  · rw [List.Sorted, List.pairwise_map]
    refine (topIndicesFn_sorted _ _).imp ?_
    intro i j hij
    rcases hij with hlt | ⟨he, _⟩
    · exact clamp01_mono (le_of_lt hlt)
    · exact le_of_eq (congrArg clamp01 he.symm)
  · intro r hr
    obtain ⟨i, _, hri⟩ := List.mem_map.mp hr
    rw [← hri]
    exact clamp01_bounds _

/-- Witness for C6 at a concrete input: a two-film pool queried with
`topK = 1` returns at most one result. -/
theorem findSimilar_topk_bounds_witness :
    (findSimilar [(1, [1]), (2, [0])] ([1] : List ℤ) 1 none).length ≤ 1 :=
  (findSimilar_topk_bounds [(1, [1]), (2, [0])] ([1] : List ℤ) 1 (by decide) (by decide)).1

/-- Counterexample to C6 as stated: at `topK = 0` the claim demands at
most 0 results, but `find_similar` returns the whole (one-element) pool:
`np.argpartition(sims, -0)[-0:]` is the entire index array because the
Python slice `[-0:]` starts at 0. -/
theorem findSimilar_topk_zero_counterexample :
    (findSimilar [(1, [1])] ([1] : List ℤ) 0 none).length = 1 ∧
    ¬ (findSimilar [(1, [1])] ([1] : List ℤ) 0 none).length ≤ 0 := by
  decide

/-- Claim C7 (amended): no original-pool-order tie rule.  In both the
full-sort branch and the partial top-k branch, `find_similar` returns
its results sorted by non-increasing score — a conclusion independent of
how `np.argsort`'s unspecified tie order is determinized — but tied
candidates are *not* returned in original pool order:
`argsort(...)[::-1]` reverses whatever ascending order `argsort`
produced, so on numpy's stable small-array path (as at the
counterexample) ties come out in reverse pool order, and beyond the
insertion-sort threshold numpy's default quicksort guarantees no tie
order at all. -/
theorem findSimilar_sorted_desc (pool : List (Int × List α)) (u : List α) (k : ℕ)
    (fl : Option (List Int)) :
    List.Sorted (fun a b : SimilarityResult α => b.score ≤ a.score)
      (findSimilar pool u k fl) := by
  by_cases h1 : pool.length = 0
  · unfold findSimilar
    rw [if_pos h1]
    exact List.sorted_nil
  by_cases h2 : normSq u = 0
  · unfold findSimilar
    rw [if_neg h1, if_pos h2]
    exact List.sorted_nil
  by_cases h3 : (filteredPool pool fl).length = 0
  · unfold findSimilar
    rw [if_neg h1, if_neg h2, if_pos h3]
    exact List.sorted_nil
  rw [findSimilar_eq h1 h2 h3, List.Sorted, List.pairwise_map]
  refine (topIndicesFn_sorted _ _).imp ?_
  intro i j hij
  rcases hij with hlt | ⟨he, _⟩
  · exact clamp01_mono (le_of_lt hlt)
  · exact le_of_eq (congrArg clamp01 he.symm)

/-- Counterexample to C7 as stated: films 1 and 2 have identical
embeddings (equal similarity 1), yet `find_similar` returns film 2 first
— reverse pool order, not the claimed original pool order.  At two
elements `np.argsort` runs its insertion-sort path, which is stable, so
the model's output here is the program's actual output. -/
theorem findSimilar_tie_counterexample :
    (findSimilar [(1, [1]), (2, [1])] ([1] : List ℤ) 5 none).map SimilarityResult.film_id = [2, 1] ∧
    (findSimilar [(1, [1]), (2, [1])] ([1] : List ℤ) 5 none).map SimilarityResult.film_id ≠ [1, 2] := by
  decide

/-! ### Generative ranker (claims C2, C4, C10)

`LLMService.generate` (llm_service.py lines 184-266) together with
`_mock_response` (268-317) and `_fallback_response` (319-342).  The
external Gemini call, the markdown-fence stripping and the JSON parsing
of its reply are summarized by `ExternalOutcome`: `parsed` stands for a
reply whose cleaned text parsed as JSON with the required
`primary.film_id` / `primary.title` fields present (optional fields via
`dict.get`), `parseError` for `json.JSONDecodeError`, and `otherError`
for every other exception escaping the `try` block (timeout, transport
error, missing schema keys raising `KeyError`, ...).  `random.choice` is
summarized by the explicit choice function `pick`. -/

/-- The candidate dictionaries handed to `generate`
(recommendation_service.py lines 136-146); only the fields the ranking
logic reads are retained (`year`, `vote_average`, `overview` only feed
the prompt text). -/
structure Candidate where
  id : Int
  title : String
  genres : List String
deriving DecidableEq

/-- `FilmRecommendation` dataclass (llm_service.py lines 61-67). -/
structure FilmRecommendation where
  film_id : Int
  title : String
  reasoning : Option String := none
  tagline : Option String := none
deriving DecidableEq

/-- `LLMResponse` dataclass (llm_service.py lines 70-75). -/
structure LLMResponse where
  primary : FilmRecommendation
  secondary : List FilmRecommendation
  raw_response : String
deriving DecidableEq

/-- The `ValueError("No candidate films ...")` raised by `_mock_response`
and `_fallback_response` — the spec's `NoCandidates` error. -/
inductive GenError where
  | noCandidates (msg : String)
deriving DecidableEq

/-- Successfully parsed `primary` object of the external reply. -/
structure ParsedPrimary where
  film_id : Int
  title : String
  reasoning : Option String
deriving DecidableEq

/-- Successfully parsed `secondary` entry of the external reply. -/
structure ParsedSecondary where
  film_id : Int
  title : String
  tagline : Option String
deriving DecidableEq

/-- Successfully parsed external reply. -/
structure ParsedData where
  primary : ParsedPrimary
  secondary : List ParsedSecondary
deriving DecidableEq

/-- Outcome of the external generative call, see the section comment. -/
inductive ExternalOutcome where
  | parsed (d : ParsedData) (raw : String)
  | parseError
  | otherError
deriving DecidableEq

/-- Whether the external call failed in any way (JSON parse failure,
timeout, transport error, malformed schema). -/
def ExternalOutcome.isFailure : ExternalOutcome → Bool
  | .parsed _ _ => false
  | .parseError => true
  | .otherError => true

/-- The configuration fields `generate` consults (config.py lines 14-26). -/
structure LLMConfig where
  llm_mock_mode : Bool
  gemini_api_key : String
deriving DecidableEq

/-- The guard `settings.llm_mock_mode or not settings.gemini_api_key` at
llm_service.py line 201 (an empty API key string is falsy in Python). -/
def usesMock (cfg : LLMConfig) : Prop :=
  cfg.llm_mock_mode = true ∨ cfg.gemini_api_key = ""

instance (cfg : LLMConfig) : Decidable (usesMock cfg) := by
  unfold usesMock; exact inferInstance

/-- Python lower-casing of a string. -/
def lowerStr (s : String) : String := s.map Char.toLower

/-- `MOCK_REASONING_TEMPLATES` (llm_service.py lines 14-47), in dict
insertion order. -/
def MOCK_REASONING_TEMPLATES : List (String × List String) :=
  [("joyeux",
    ["Tu rayonnes de bonne humeur ! Ce film va amplifier cette énergie positive avec son \x7bgenre\x7d captivant. Parfait pour prolonger ce moment de bonheur.",
     "Avec ton état d'esprit radieux, ce \x7bgenre\x7d lumineux va te faire passer un excellent moment. L'alchimie entre les personnages reflète ta joie actuelle."]),
   ("triste",
    ["Parfois, un bon film aide à traverser les moments difficiles. Ce \x7bgenre\x7d touchant t'accompagnera avec douceur et te rappellera que les émotions font partie de la vie.",
     "Ce film a cette capacité rare de nous comprendre quand on ne va pas bien. Son \x7bgenre\x7d sensible résonnera avec ce que tu ressens."]),
   ("stressé",
    ["Tu as besoin de décompresser ! Ce \x7bgenre\x7d va te permettre de t'évader complètement et d'oublier tes soucis pendant quelques heures.",
     "Rien de tel qu'un bon \x7bgenre\x7d pour relâcher la pression. Ce film te transportera loin de ton stress quotidien."]),
   ("curieux",
    ["Ton esprit curieux va adorer ce \x7bgenre\x7d qui pose des questions fascinantes. Prépare-toi à être surpris et à réfléchir !",
     "Ce \x7bgenre\x7d intelligent va nourrir ta curiosité. Chaque scène apporte son lot de découvertes et de rebondissements."]),
   ("romantique",
    ["L'amour est dans l'air ! Ce \x7bgenre\x7d va faire battre ton cœur avec son histoire touchante et ses moments magiques.",
     "Parfait pour ton humeur romantique, ce film capture magnifiquement la beauté des sentiments avec son \x7bgenre\x7d émouvant."]),
   ("aventurier",
    ["Tu veux de l'action ? Ce \x7bgenre\x7d palpitant va te tenir en haleine du début à la fin. Accroche-toi !",
     "Ton esprit aventurier va être comblé par ce \x7bgenre\x7d épique. Des paysages grandioses et des héros courageux t'attendent."]),
   ("nostalgique",
    ["Ce \x7bgenre\x7d a cette magie des films qui nous marquent pour toujours. Il va résonner avec tes souvenirs les plus précieux.",
     "Parfait pour ton humeur nostalgique, ce classique du \x7bgenre\x7d te ramènera à une époque où tout semblait plus simple."]),
   ("default",
    ["Ce \x7bgenre\x7d correspond parfaitement à ce que tu recherches ce soir. Son ambiance unique va te captiver dès les premières minutes.",
     "Un excellent choix pour ton humeur actuelle ! Ce \x7bgenre\x7d a tout ce qu'il faut pour te faire passer un moment mémorable."])]

/-- `MOCK_TAGLINES` (llm_service.py lines 49-58). -/
def MOCK_TAGLINES : List String :=
  ["Une pépite qui va te surprendre",
   "Un classique incontournable",
   "Pour les amateurs de sensations fortes",
   "Un voyage émotionnel garanti",
   "Du pur divertissement",
   "Une histoire qui reste en tête",
   "À voir absolument ce soir",
   "Le choix parfait pour ton mood"]

/-- Python's substring test `needle in hay` on character lists. -/
def hasSubChars (needle : List Char) : List Char → Bool
  | [] => needle.isEmpty
  | c :: rest => needle.isPrefixOf (c :: rest) || hasSubChars needle rest

/-- The mood-key search of `_mock_response` (lines 274-279): the first
template key that is a substring of the lower-cased mood, defaulting to
`"default"`. -/
def moodKeyOf (mood : String) : String :=
  ((MOCK_REASONING_TEMPLATES.map Prod.fst).find?
      (fun k => hasSubChars k.data (lowerStr mood).data)).getD "default"

/-- Dictionary lookup `MOCK_REASONING_TEMPLATES[mood_key]`. -/
def templatesFor (key : String) : List String :=
  ((MOCK_REASONING_TEMPLATES.find? (fun kv => kv.1 == key)).map Prod.snd).getD []

/-- The tagline loop of `_mock_response` (lines 292-306): pick an unused
tagline for each secondary candidate, recycling the full bank once
exhausted. -/
def mockTaglinesFor (pick : List String → String) :
    List Candidate → List String → List FilmRecommendation
  | [], _ => []
  | s :: rest, used =>
    let avail := MOCK_TAGLINES.filter (fun t => !(used.contains t))
    let t := pick (if avail = [] then MOCK_TAGLINES else avail)
    ⟨s.id, s.title, none, some t⟩ :: mockTaglinesFor pick rest (t :: used)

/-- `LLMService._mock_response` (lines 268-317): raises `NoCandidates` on
an empty candidate list, otherwise primary = first candidate with a
templated mood-keyed reasoning, secondary = candidates 1-4 with picked
taglines. -/
def mockResponse (pick : List String → String) (mood : String) (cands : List Candidate) :
    Except GenError LLMResponse :=
  match cands with
  | [] => .error (.noCandidates "No candidate films for mock response")
  | p :: rest =>
    let primaryGenre := match p.genres with
      | [] => "film"
      | g :: _ => g
    let reasoning :=
      (pick (templatesFor (moodKeyOf mood))).replace "\x7bgenre\x7d" (lowerStr primaryGenre)
    .ok ⟨⟨p.id, p.title, some reasoning, none⟩,
         mockTaglinesFor pick (rest.take 4) [], "mock_mode"⟩

/-- `LLMService._fallback_response` (lines 319-342): raises `NoCandidates`
on an empty candidate list, otherwise primary = first candidate,
secondary = candidates 1-4, each with the fixed generic
justification/tagline. -/
def fallbackResponse (cands : List Candidate) : Except GenError LLMResponse :=
  match cands with
  | [] => .error (.noCandidates "No candidate films for fallback")
  | p :: rest =>
    .ok ⟨⟨p.id, p.title, some "Ce film correspond a ton humeur actuelle et tes preferences.", none⟩,
         (rest.take 4).map (fun s =>
           ⟨s.id, s.title, none, some "Une alternative qui pourrait te plaire."⟩),
         "fallback"⟩

/-- Observable behaviour of one `generate` call: its returned or raised
result plus whether the mock path was taken, the rate limiter acquired
and the external model called. -/
structure GenEffects where
  result : Except GenError LLMResponse
  usedMockPath : Bool
  rateLimiterAcquired : Bool
  externalCalled : Bool

/-- `LLMService.generate` (lines 184-266): mock path when mock mode is on
or the API key is empty; otherwise initialize, acquire the rate limiter,
call the external model, and either return the parsed reply
(`primary` plus the first four `secondary` entries) or absorb the failure
into `_fallback_response`. -/
def generate (cfg : LLMConfig) (pick : List String → String) (mood : String)
    (cands : List Candidate) (outcome : ExternalOutcome) : GenEffects :=
  if usesMock cfg then
    ⟨mockResponse pick mood cands, true, false, false⟩
  else
    match outcome with
    | .parsed d raw =>
      ⟨.ok ⟨⟨d.primary.film_id, d.primary.title, d.primary.reasoning, none⟩,
            (d.secondary.take 4).map (fun s => ⟨s.film_id, s.title, none, s.tagline⟩),
            raw⟩, false, true, true⟩
    | .parseError => ⟨fallbackResponse cands, false, true, true⟩
    | .otherError => ⟨fallbackResponse cands, false, true, true⟩

theorem mockTaglinesFor_length (pick : List String → String) (l : List Candidate) :
    ∀ used, (mockTaglinesFor pick l used).length = l.length := by
  induction l with
  | nil => intro used; rfl
  | cons s rest ih =>
    intro used
    simp only [mockTaglinesFor, List.length_cons]
    rw [ih]

theorem mockTaglinesFor_ids (pick : List String → String) (l : List Candidate) :
    ∀ used, ∀ rec ∈ mockTaglinesFor pick l used, rec.film_id ∈ l.map Candidate.id := by
  induction l with
  | nil => intro used rec h; cases h
  | cons s rest ih =>
    intro used rec h
    simp only [mockTaglinesFor, List.mem_cons] at h
    rcases h with h | h
    · rw [h]
      exact List.mem_cons_self _ _
    · exact List.mem_cons_of_mem _ (ih _ rec h)

/-- Claim C2: ranker failure absorption.  For every non-empty candidate
list, whenever the external generative call fails in any way (JSON parse
failure, timeout, transport error, malformed schema), `generate` returns
— never raises — the deterministic fallback: primary = first (highest
similarity) candidate with the generic justification, secondary = the
next four candidates with the generic tagline. -/
theorem generate_absorbs_ranker_failure (cfg : LLMConfig) (pick : List String → String)
    (mood : String) (c : Candidate) (rest : List Candidate) (outcome : ExternalOutcome)
    (hmock : ¬ usesMock cfg) (hfail : outcome.isFailure = true) :
    (generate cfg pick mood (c :: rest) outcome).result =
      .ok ⟨⟨c.id, c.title,
            some "Ce film correspond a ton humeur actuelle et tes preferences.", none⟩,
           (rest.take 4).map (fun s =>
             ⟨s.id, s.title, none, some "Une alternative qui pourrait te plaire."⟩),
           "fallback"⟩ := by
  unfold generate
  rw [if_neg hmock]
  cases outcome with
  | parsed d raw => cases hfail
  | parseError => rfl
  | otherError => rfl

/-- Witness for C2 at a concrete input: live configuration, one
candidate, JSON parse failure. -/
theorem generate_absorbs_ranker_failure_witness :
    (generate ⟨false, "k"⟩ (fun l => l.headD "") "" [⟨1, "A", []⟩] .parseError).result =
      .ok ⟨⟨1, "A", some "Ce film correspond a ton humeur actuelle et tes preferences.", none⟩,
           [], "fallback"⟩ :=
  generate_absorbs_ranker_failure ⟨false, "k"⟩ (fun l => l.headD "") "" ⟨1, "A", []⟩ []
    .parseError (by decide) rfl

/-- Claim C4 (amended): `generate` with an empty candidate list fails with
the `NoCandidates` error whenever the mock path or the fallback path is
taken (in the live path a successfully parsed external reply is returned
even for an empty candidate list); with any non-empty candidate list it
returns exactly one primary and at most four secondary entries; and the
returned ids are drawn from the candidate set on the mock and fallback
paths (the live success path returns the external model's ids without
validating them against the candidate set — see the counterexample). -/
theorem generate_shape (cfg : LLMConfig) (pick : List String → String) (mood : String)
    (cands : List Candidate) (outcome : ExternalOutcome) :
    ((cands = [] ∧ (usesMock cfg ∨ outcome.isFailure = true)) →
      ∃ m, (generate cfg pick mood cands outcome).result = .error (.noCandidates m)) ∧
    (cands ≠ [] →
      ∃ r, (generate cfg pick mood cands outcome).result = .ok r ∧
        r.secondary.length ≤ 4 ∧
        ((usesMock cfg ∨ outcome.isFailure = true) →
          r.primary.film_id ∈ cands.map Candidate.id ∧
          ∀ s ∈ r.secondary, s.film_id ∈ cands.map Candidate.id)) := by
  by_cases hmock : usesMock cfg
  · have hgen : generate cfg pick mood cands outcome =
        ⟨mockResponse pick mood cands, true, false, false⟩ := by
      unfold generate
      rw [if_pos hmock]
    rw [hgen]
    cases cands with
    | nil =>
      exact ⟨fun _ => ⟨"No candidate films for mock response", rfl⟩, fun h => absurd rfl h⟩
    | cons p rest =>
      refine ⟨fun h => absurd h.1 (List.cons_ne_nil _ _), fun _ => ?_⟩
      refine ⟨_, rfl, ?_, ?_⟩
      · show (mockTaglinesFor pick (rest.take 4) []).length ≤ 4
        rw [mockTaglinesFor_length]
        simp [List.length_take]
      · intro _
        constructor
        · exact List.mem_cons_self _ _
        · intro s hs
          have := mockTaglinesFor_ids pick (rest.take 4) [] s hs
          exact List.mem_cons_of_mem _
            (List.map_subset Candidate.id (List.take_subset 4 rest) this)
  · cases outcome with
    | parsed d raw =>
      have hgen : generate cfg pick mood cands (.parsed d raw) =
          ⟨.ok ⟨⟨d.primary.film_id, d.primary.title, d.primary.reasoning, none⟩,
                (d.secondary.take 4).map (fun s => ⟨s.film_id, s.title, none, s.tagline⟩),
                raw⟩, false, true, true⟩ := by
        unfold generate
        rw [if_neg hmock]
      rw [hgen]
      constructor
      · rintro ⟨-, h | h⟩
        · exact absurd h hmock
        · cases h
      · intro _
        refine ⟨_, rfl, ?_, ?_⟩
        · show ((d.secondary.take 4).map _).length ≤ 4
          simp [List.length_take]
        · rintro (h | h)
          · exact absurd h hmock
          · cases h
    | parseError =>
      have hgen : generate cfg pick mood cands .parseError =
          ⟨fallbackResponse cands, false, true, true⟩ := by
        unfold generate
        rw [if_neg hmock]
      rw [hgen]
      cases cands with
      | nil =>
        exact ⟨fun _ => ⟨"No candidate films for fallback", rfl⟩, fun h => absurd rfl h⟩
      | cons p rest =>
        refine ⟨fun h => absurd h.1 (List.cons_ne_nil _ _), fun _ => ?_⟩
        refine ⟨_, rfl, ?_, ?_⟩
        · show ((rest.take 4).map _).length ≤ 4
          simp [List.length_take]
        · intro _
          constructor
          · exact List.mem_cons_self _ _
          · intro s hs
            obtain ⟨c, hc, rfl⟩ := List.mem_map.mp hs
            exact List.mem_cons_of_mem _
              (List.map_subset Candidate.id (List.take_subset 4 rest) (List.mem_map_of_mem _ hc))
    | otherError =>
      have hgen : generate cfg pick mood cands .otherError =
          ⟨fallbackResponse cands, false, true, true⟩ := by
        unfold generate
        rw [if_neg hmock]
      rw [hgen]
      cases cands with
      | nil =>
        exact ⟨fun _ => ⟨"No candidate films for fallback", rfl⟩, fun h => absurd rfl h⟩
      | cons p rest =>
        refine ⟨fun h => absurd h.1 (List.cons_ne_nil _ _), fun _ => ?_⟩
        refine ⟨_, rfl, ?_, ?_⟩
        · show ((rest.take 4).map _).length ≤ 4
          simp [List.length_take]
        · intro _
          constructor
          · exact List.mem_cons_self _ _
          · intro s hs
            obtain ⟨c, hc, rfl⟩ := List.mem_map.mp hs
            exact List.mem_cons_of_mem _
              (List.map_subset Candidate.id (List.take_subset 4 rest) (List.mem_map_of_mem _ hc))

/-- Witness for C4 at a concrete input: with one candidate and a parse
failure in mock configuration, `generate` returns a successful result. -/
theorem generate_shape_witness :
    ((generate ⟨true, ""⟩ (fun l => l.headD "") "joyeux" [⟨1, "A", ["Drame"]⟩]
        .parseError).result).isOk = true := by
  obtain ⟨r, hr, -, -⟩ :=
    (generate_shape ⟨true, ""⟩ (fun l => l.headD "") "joyeux" [⟨1, "A", ["Drame"]⟩]
      .parseError).2 (List.cons_ne_nil _ _)
  rw [hr]
  rfl

/-- Counterexample to C4 as stated: in the live path a successfully
parsed external reply naming film id 999 is returned although the only
supplied candidate has id 1 — the returned id is not drawn from the
candidate set (and no `NoCandidates` error guards the live path). -/
theorem generate_out_of_pool_counterexample :
    (generate ⟨false, "k"⟩ (fun l => l.headD "") "" [⟨1, "A", []⟩]
        (.parsed ⟨⟨999, "X", none⟩, []⟩ "raw")).result =
      .ok ⟨⟨999, "X", none, none⟩, [], "raw"⟩ ∧
    (999 : Int) ∉ ([⟨1, "A", []⟩] : List Candidate).map Candidate.id := by
  refine ⟨?_, by decide⟩
  rfl

/-- Claim C10: implicit mock fallback on missing credentials.  Whenever
the configured Gemini API key is the empty string, `generate` takes the
templated mock-response path and performs neither a rate-limiter
acquisition nor an external call — regardless of the mock-mode toggle,
the mood, the candidates or what the external call would have done. -/
theorem generate_mock_on_missing_key (cfg : LLMConfig) (pick : List String → String)
    (mood : String) (cands : List Candidate) (outcome : ExternalOutcome)
    (hkey : cfg.gemini_api_key = "") :
    generate cfg pick mood cands outcome =
      ⟨mockResponse pick mood cands, true, false, false⟩ := by
  unfold generate
  rw [if_pos (show usesMock cfg from Or.inr hkey)]

/-- Witness for C10 at a concrete input: mock-mode toggle off, empty API
key — still the mock path, no rate limiter, no external call. -/
theorem generate_mock_on_missing_key_witness :
    generate ⟨false, ""⟩ (fun l => l.headD "") "triste" [⟨1, "A", []⟩] .otherError =
      ⟨mockResponse (fun l => l.headD "") "triste" [⟨1, "A", []⟩], true, false, false⟩ :=
  generate_mock_on_missing_key ⟨false, ""⟩ (fun l => l.headD "") "triste" [⟨1, "A", []⟩]
    .otherError rfl

/-! ### Rate limiter (claim C3)

`RateLimiter.acquire` (llm_service.py lines 78-98).  Timestamps are
ideal-real values of the ordered ring `α`; `await asyncio.sleep(s)` is
idealized as waking exactly `s` later, and the `time.time()` read after
the sleep as that wake time.  `runAcquires` plays a sequence of
arrival times through one limiter: each call starts at its arrival time
or at the previous call's admission time, whichever is later (callers
are serialized, the weakest scheduling the claim must survive). -/

/-- `RateLimiter` state (llm_service.py lines 78-84). -/
structure RateLimiter (α : Type) where
  max_requests : ℕ
  window : α
  requests : List α

/-- `RateLimiter.acquire` (lines 86-98): prune entries older than the
window, sleep until the oldest pruned entry leaves the window when the
window is full — and then *reset the list to empty* — finally record the
admission time.  Returns (admission time, new state). -/
def RateLimiter.acquire (rl : RateLimiter α) (now : α) : α × RateLimiter α :=
  let kept := rl.requests.filter (fun t => decide (now - t < rl.window))
  if rl.max_requests ≤ kept.length then
    let sleepTime := rl.window - (now - kept.headD 0)
    let admitTime := if 0 < sleepTime then now + sleepTime else now
    (admitTime, ⟨rl.max_requests, rl.window, [admitTime]⟩)
  else
    (now, ⟨rl.max_requests, rl.window, kept ++ [now]⟩)

/-- Serialized acquire calls at the given arrival times; returns the
admission times. -/
def runAcquires (rl : RateLimiter α) (lastDone : α) : List α → List α
  | [] => []
  | a :: rest =>
    let step := rl.acquire (max a lastDone)
    step.1 :: runAcquires step.2 step.1 rest

/-- Claim C3 is violated by the code: with `max_requests = 2` and a
60-second window, four sequential acquire calls arriving at times
0, 30, 30, 60 are admitted at times 0, 30, 60, 60 — and the rolling
60-second window `(0, 60]` then contains three admissions (30, 60, 60),
exceeding N = 2.  Cause: after sleeping, `acquire` executes
`self.requests = []`, forgetting the admission at t = 30 that is still
inside the window, so the next call is admitted immediately.  (The
suspension itself does match the claim: the third call sleeps exactly
until the oldest admitted call, t = 0, falls outside the window.) -/
theorem rateLimiter_window_violation :
    runAcquires (⟨2, 60, []⟩ : RateLimiter ℤ) 0 [0, 30, 30, 60] = [0, 30, 60, 60] ∧
    ((runAcquires (⟨2, 60, []⟩ : RateLimiter ℤ) 0 [0, 30, 30, 60]).filter
        (fun t => decide (0 < t ∧ t ≤ 60))).length = 3 := by
  decide

/-! ### Response cache reads (claim C8)

`CacheService.get` (cache_service.py lines 35-59) over the unique-indexed
`llm_cache` table (`input_hash` carries a UNIQUE constraint,
llm_cache.py line 11), with `LLMCache.is_expired` =
`datetime.utcnow() > self.expires_at` (llm_cache.py lines 26-28).  The
table is a list of rows; the UNIQUE constraint is the `Nodup` hypothesis
on the stored hashes.  Both clock reads inside one `get` (and the
immediately following second `get` of the claim) are idealized to the
same instant `now`. -/

/-- A row of the `llm_cache` table (llm_cache.py lines 7-14). -/
structure CacheEntry (α : Type) where
  input_hash : String
  response : String
  created_at : α
  expires_at : α
deriving DecidableEq

/-- `LLMCache.is_expired`: `utcnow() > expires_at`. -/
def isExpired (now : α) (e : CacheEntry α) : Bool :=
  decide (e.expires_at < now)

/-- `CacheService.get`: look the hash up; on a miss return `None`; if the
row is expired, delete it and return `None`; otherwise return the stored
response.  Returns (result, table after the call). -/
def cacheGet (entries : List (CacheEntry α)) (now : α) (h : String) :
    Option String × List (CacheEntry α) :=
  match entries.find? (fun e => e.input_hash == h) with
  | none => (none, entries)
  | some e =>
    if isExpired now e then (none, entries.erase e)
    else (some e.response, entries)

theorem find?_erase_eq_none {entries : List (CacheEntry α)} {h : String}
    {e : CacheEntry α}
    (huniq : (entries.map CacheEntry.input_hash).Nodup)
    (hf : entries.find? (fun x => x.input_hash == h) = some e) :
    (entries.erase e).find? (fun x => x.input_hash == h) = none := by
  have hnodup : entries.Nodup := huniq.of_map
  have hmem : e ∈ entries := List.mem_of_find?_eq_some hf
  have hhash : e.input_hash = h := by
    have := List.find?_some hf
    simpa using this
  rw [List.find?_eq_none]
  intro x hx hpx
  have hxmem : x ∈ entries := (List.erase_subset _ _) hx
  have hxhash : x.input_hash = h := by simpa using hpx
  have hxe : x = e :=
    List.inj_on_of_nodup_map huniq hxmem hmem (by rw [hxhash, hhash])
  rw [hxe] at hx
  exact (hnodup.mem_erase_iff.mp hx).1 rfl

/-- Claim C8: expired-entry eviction on read.  A miss returns absent with
no error and no table change; a hit on a row with `expiresAt` in the past
(`now > expiresAt`) returns absent and deletes the row, so an immediately
following second `get` of the same key also returns absent; a hit on an
unexpired row (`now <= expiresAt`) returns the stored payload. -/
theorem cacheGet_expiry (entries : List (CacheEntry α)) (now : α) (h : String)
    (huniq : (entries.map CacheEntry.input_hash).Nodup) :
    (entries.find? (fun e => e.input_hash == h) = none →
      cacheGet entries now h = (none, entries)) ∧
    ∀ e, entries.find? (fun x => x.input_hash == h) = some e →
      (e.expires_at < now →
        (cacheGet entries now h).1 = none ∧
        (cacheGet (cacheGet entries now h).2 now h).1 = none) ∧
      (now ≤ e.expires_at → (cacheGet entries now h).1 = some e.response) := by
  constructor
  · intro hnone
    unfold cacheGet
    rw [hnone]
  · intro e hf
    constructor
    · intro hexp
      have hcg : cacheGet entries now h = (none, entries.erase e) := by
        unfold cacheGet
        rw [hf]
        show (if isExpired now e = true then ((none : Option String), entries.erase e)
              else (some e.response, entries)) = (none, entries.erase e)
        rw [if_pos (show isExpired now e = true from decide_eq_true hexp)]
      refine ⟨by rw [hcg], ?_⟩
      rw [hcg]
      show (cacheGet (entries.erase e) now h).1 = none
      unfold cacheGet
      rw [find?_erase_eq_none huniq hf]
    · intro hle
      unfold cacheGet
      rw [hf]
      show (if isExpired now e = true then ((none : Option String), entries.erase e)
            else (some e.response, entries)).1 = some e.response
      rw [show isExpired now e = false from decide_eq_false (not_lt.mpr hle)]
      rfl

/-- Witness for C8 at a concrete input: a single row with
`expires_at = 5` read at `now = 10` returns absent, and so does the
immediately following second read. -/
theorem cacheGet_expiry_witness :
    (cacheGet [(⟨"k", "resp", 0, 5⟩ : CacheEntry ℤ)] 10 "k").1 = none ∧
    (cacheGet (cacheGet [(⟨"k", "resp", 0, 5⟩ : CacheEntry ℤ)] 10 "k").2 10 "k").1 = none :=
  ((cacheGet_expiry [(⟨"k", "resp", 0, 5⟩ : CacheEntry ℤ)] 10 "k" (by decide)).2
    ⟨"k", "resp", 0, 5⟩ rfl).1 (by decide)

/-! ### Unfiltered retry (claim C9)

Steps 3-5 of `RecommendationService.get_recommendations`
(recommendation_service.py lines 104-126): fetch the filtered catalog;
if the result is empty, fetch once more with no filters; load the result
into the similarity index and query the top 20 restricted to the
selected films' own ids.  The catalog collaborator
`FilmService.get_films_with_embeddings` is the function parameter
`fetch`; its argument records which filters were passed (`none` fields =
Python default `None` = no predicate), and `fetchFilmsWithRetry` also
returns the exact list of fetch calls made, in order. -/

/-- Arguments of one `get_films_with_embeddings` call. -/
structure FilterArgs where
  duration : Option String
  platforms : Option (List String)
  genres : Option (List String)
deriving DecidableEq

/-- The no-argument retry call `get_films_with_embeddings()`. -/
def noFilters : FilterArgs := ⟨none, none, none⟩

/-- Lines 104-113: fetch filtered; on an empty result retry exactly once
with no filters.  Returns (selected films, trace of fetch calls). -/
def fetchFilmsWithRetry (fetch : FilterArgs → List (Int × List α)) (args : FilterArgs) :
    List (Int × List α) × List FilterArgs :=
  if fetch args = [] then (fetch noFilters, [args, noFilters])
  else (fetch args, [args])

theorem findSimilar_self_filter_ne_nil (pool : List (Int × List α)) (u : List α) (k : ℕ)
    (hp : pool ≠ []) (hu : normSq u ≠ 0) (hk : 1 ≤ k) :
    findSimilar pool u k (some (pool.map Prod.fst)) ≠ [] := by
  have h1 : pool.length ≠ 0 := by simpa [List.length_eq_zero] using hp
  have hids : pool.map Prod.fst ≠ [] := by
    simpa [List.map_eq_nil_iff] using hp
  have hfp : filteredPool pool (some (pool.map Prod.fst)) = pool := by
    rw [filteredPool_some, if_neg hids]
    rw [List.filter_eq_self]
    intro p hpmem
    exact decide_eq_true (List.mem_map_of_mem Prod.fst hpmem)
  have h3 : (filteredPool pool (some (pool.map Prod.fst))).length ≠ 0 := by
    rw [hfp]; exact h1
  rw [findSimilar_eq h1 hu h3]
  intro hcontra
  have := congrArg List.length hcontra
  rw [List.length_map, topIndicesFn_length, if_neg (by omega : ¬ k = 0)] at this
  simp only [List.length_nil] at this
  have hsl : (simScores (filteredPool pool (some (pool.map Prod.fst))) u).length = pool.length := by
    rw [hfp]; simp [simScores]
  rw [hsl] at this
  have : 1 ≤ min k pool.length := le_min hk (by omega)
  omega

/-- Claim C9: unfiltered-retry fallback.  When the filtered fetch matches
zero catalog items the orchestrator retries the retrieval exactly once
with no filters (and never retries otherwise), so the selected film set
is non-empty whenever the unfiltered catalog is non-empty; the follow-up
top-20 similarity query over that set (restricted to its own ids, as in
step 5) then returns candidates — a full recommendation — provided the
query embedding is non-zero (a zero embedding empties the similarity
stage for every catalog, filtered or not). -/
theorem unfiltered_retry (fetch : FilterArgs → List (Int × List α)) (args : FilterArgs)
    (u : List α) :
    (fetch args = [] →
      fetchFilmsWithRetry fetch args = (fetch noFilters, [args, noFilters])) ∧
    (fetch args ≠ [] →
      fetchFilmsWithRetry fetch args = (fetch args, [args])) ∧
    (fetch noFilters ≠ [] → (fetchFilmsWithRetry fetch args).1 ≠ []) ∧
    (fetch noFilters ≠ [] → normSq u ≠ 0 →
      findSimilar (fetchFilmsWithRetry fetch args).1 u 20
        (some ((fetchFilmsWithRetry fetch args).1.map Prod.fst)) ≠ []) := by
  have hsel : (fetchFilmsWithRetry fetch args).1 =
      if fetch args = [] then fetch noFilters else fetch args := by
    unfold fetchFilmsWithRetry
    by_cases h : fetch args = []
    · rw [if_pos h, if_pos h]
    · rw [if_neg h, if_neg h]
  refine ⟨?_, ?_, ?_, ?_⟩
  · intro h
    unfold fetchFilmsWithRetry
    rw [if_pos h]
  · intro h
    unfold fetchFilmsWithRetry
    rw [if_neg h]
  · intro hnf
    rw [hsel]
    by_cases h : fetch args = []
    · rw [if_pos h]; exact hnf
    · rw [if_neg h]; exact h
  · intro hnf hu
    have hne : (fetchFilmsWithRetry fetch args).1 ≠ [] := by
      rw [hsel]
      by_cases h : fetch args = []
      · rw [if_pos h]; exact hnf
      · rw [if_neg h]; exact h
    exact findSimilar_self_filter_ne_nil _ u 20 hne hu (by omega)

/-- Witness for C9 at a concrete input: a catalog fetch that matches
nothing under the supplied filters but one film without; the retry is
taken (with the no-filter arguments) and the similarity stage still
returns candidates. -/
theorem unfiltered_retry_witness :
    fetchFilmsWithRetry
        (fun a : FilterArgs => if a = noFilters then [((1 : Int), [(1 : ℤ)])] else [])
        ⟨some "<90", none, none⟩ =
      ([(1, [1])], [⟨some "<90", none, none⟩, noFilters]) ∧
    findSimilar
        (fetchFilmsWithRetry
          (fun a : FilterArgs => if a = noFilters then [((1 : Int), [(1 : ℤ)])] else [])
          ⟨some "<90", none, none⟩).1 ([1] : List ℤ) 20
        (some ((fetchFilmsWithRetry
          (fun a : FilterArgs => if a = noFilters then [((1 : Int), [(1 : ℤ)])] else [])
          ⟨some "<90", none, none⟩).1.map Prod.fst)) ≠ [] := by
  have h := unfiltered_retry
    (fun a : FilterArgs => if a = noFilters then [((1 : Int), [(1 : ℤ)])] else [])
    ⟨some "<90", none, none⟩ ([1] : List ℤ)
  exact ⟨h.1 (by decide), h.2.2.2 (by decide) (by decide)⟩

end Cinemood
